import Mathlib

/-!
Shallow embedding of the core game logic of `src/main.rs` (the Cyber Cycle
arcade game): the four-direction movement model, the bounded trail deque
(`Trail::trek`), bike movement with its sixteen-case turn table
(`move_bike`), keyboard direction selection (`player_movement`), and
collision resolution with the two-state app state machine
(`check_collisions`, `handle_wall_collision`, `AppState`).

The Rust source computes in `f32`; arithmetic is modelled exactly over `ℚ`.
Entities (Bevy `Entity` handles) are modelled as `Nat`.  Side effects on the
ECS world (spawn/despawn, state set) are modelled by explicit result records.
-/

namespace CyberCycle

/-- `TIME_STEP` constant from `src/main.rs`: fixed timestep of 1/60 s. -/
def TIME_STEP : ℚ := 1 / 60

/-- `BIKE_SPEED` constant from `src/main.rs`. -/
def BIKE_SPEED : ℚ := 400

/-- `BIKE_DELTA = BIKE_SPEED * TIME_STEP`: per-tick displacement. -/
def BIKE_DELTA : ℚ := BIKE_SPEED * TIME_STEP

/-- `TRAIL_BLOCK_HALF = (BIKE_DELTA / 2.0) - 1.`: collision half-extent of a
trail block. -/
def TRAIL_BLOCK_HALF : ℚ := BIKE_DELTA / 2 - 1

/-- `BIKE_WIDTH` constant from `src/main.rs`. -/
def BIKE_WIDTH : ℚ := 50

/-- `BIKE_HEIGHT` constant from `src/main.rs`. -/
def BIKE_HEIGHT : ℚ := 41

/-- `BIKE_WIDTH_CENTER` constant from `src/main.rs` (25.0). -/
def BIKE_WIDTH_CENTER : ℚ := 25

/-- `BIKE_HEIGHT_CENTER` constant from `src/main.rs` (20.5). -/
def BIKE_HEIGHT_CENTER : ℚ := 41 / 2

/-- The `Direction` enum of `src/main.rs`. -/
inductive Direction where
  | Left
  | Right
  | Down
  | Up
deriving DecidableEq, Fintype

/-- The direction exactly opposite to a given one (Left/Right and Up/Down
swap); used to state the no-reversal property. -/
def Direction.opposite : Direction → Direction
  | Direction.Left => Direction.Right
  | Direction.Right => Direction.Left
  | Direction.Down => Direction.Up
  | Direction.Up => Direction.Down

/-- The `AppState` enum of `src/main.rs`: the two-state game state machine. -/
inductive AppState where
  | InGame
  | Dead
deriving DecidableEq

/-- The four polled arrow-key states read by `player_movement`
(`keyboard_input.pressed(KeyCode::...)`). -/
structure KeyInput where
  left : Bool
  right : Bool
  down : Bool
  up : Bool
deriving DecidableEq, Fintype

/-- The direction-selection chain at the top of `player_movement`
(src/main.rs lines 213-221): an if/else-if cascade, each branch requiring
that the pressed direction is not the reverse of the current one; if no
branch fires the direction is left unchanged. -/
def player_movement_direction (k : KeyInput) (prev : Direction) : Direction :=
  if k.left = true ∧ prev ≠ Direction.Right then Direction.Left
  else if k.right = true ∧ prev ≠ Direction.Left then Direction.Right
  else if k.down = true ∧ prev ≠ Direction.Up then Direction.Down
  else if k.up = true ∧ prev ≠ Direction.Down then Direction.Up
  else prev

/-- Whether a given direction key is currently held. -/
def requested (k : KeyInput) : Direction → Bool
  | Direction.Left => k.left
  | Direction.Right => k.right
  | Direction.Down => k.down
  | Direction.Up => k.up

/-- The fixed priority order in which `player_movement` tries the four
direction requests. -/
def requestOrder : List Direction :=
  [Direction.Left, Direction.Right, Direction.Down, Direction.Up]

/-- The `TrailBlock` struct of `src/main.rs` (entity handle plus centre
position; the z-component of the `Vec3` is always 0 and is dropped). -/
structure TrailBlock where
  entity : Nat
  pos : ℚ × ℚ
deriving DecidableEq

/-- The `Trail` component of `src/main.rs`: a deque of trail blocks (front =
newest, back = oldest) plus a fixed capacity. -/
structure Trail where
  tail : List TrailBlock
  capacity : Nat
deriving DecidableEq

/-- `Trail::new()`: capacity 1000, empty deque (the `VecDeque`
pre-allocation hint of 100 000 has no observable effect). -/
def Trail.new : Trail :=
  { capacity := 1000, tail := [] }

/-- The rigid-body kinds used by `src/main.rs` (`RigidBody::Static` for
trail blocks, `RigidBody::Sensor` for the bike). -/
inductive RigidBodyKind where
  | Static
  | Sensor
deriving DecidableEq

/-- The observable data of the entity spawned for one trail block in
`Trail::trek`: mesh scale `(BIKE_DELTA, BIKE_DELTA)`, cuboid collision
half-extents `(TRAIL_BLOCK_HALF, TRAIL_BLOCK_HALF)` (z dropped), static
rigid body. -/
structure SpawnedSegment where
  entity : Nat
  pos : ℚ × ℚ
  meshScale : ℚ × ℚ
  halfExtends : ℚ × ℚ
  body : RigidBodyKind
deriving DecidableEq

/-- Result of one `Trail::trek` call: the updated trail, the entity id
despawned from the back (if the trail was at capacity), and the spawned
segment. -/
structure TrekResult where
  trail : Trail
  despawned : Option Nat
  spawned : SpawnedSegment
deriving DecidableEq

/-- The `new_head_pos` computation inside `Trail::trek` (src/main.rs lines
90-111): position of the new trail block behind the bike, per direction. -/
def trekNewHeadPos (dir : Direction) (bikePos : ℚ × ℚ) : ℚ × ℚ :=
  match dir with
  | Direction.Down =>
      (bikePos.1 + BIKE_HEIGHT_CENTER, bikePos.2 + BIKE_DELTA + BIKE_WIDTH_CENTER)
  | Direction.Up =>
      (bikePos.1 + BIKE_HEIGHT_CENTER, bikePos.2 - BIKE_DELTA - BIKE_WIDTH_CENTER)
  | Direction.Left =>
      (bikePos.1 + BIKE_DELTA + BIKE_WIDTH_CENTER, bikePos.2 - BIKE_HEIGHT_CENTER)
  | Direction.Right =>
      (bikePos.1 - BIKE_DELTA - BIKE_WIDTH_CENTER, bikePos.2 - BIKE_HEIGHT_CENTER)

/-- `Trail::trek` (src/main.rs lines 75-132): if the deque is at capacity,
pop the back and despawn it; then spawn a new static block at
`trekNewHeadPos` and push it to the front.  `freshId` models the entity id
handed out by `commands.spawn_bundle`. -/
def Trail.trek (t : Trail) (dir : Direction) (bikePos : ℚ × ℚ) (freshId : Nat) :
    TrekResult :=
  let popped : List TrailBlock × Option Nat :=
    if t.tail.length = t.capacity then
      (t.tail.dropLast, Option.map TrailBlock.entity t.tail.getLast?)
    else
      (t.tail, none)
  let headPos := trekNewHeadPos dir bikePos
  { trail :=
      { tail := { entity := freshId, pos := headPos } :: popped.1,
        capacity := t.capacity },
    despawned := popped.2,
    spawned :=
      { entity := freshId,
        pos := headPos,
        meshScale := (BIKE_DELTA, BIKE_DELTA),
        halfExtends := (TRAIL_BLOCK_HALF, TRAIL_BLOCK_HALF),
        body := RigidBodyKind.Static } }

/-- The rotation a turn applies in `move_bike` (src/main.rs lines 243-317):
a z-rotation in quarter turns (`1` is `PI/2`, `-1` is `-PI/2`, `0` none),
the pivot offset added to the bike translation to form `rotate_point`, and
the extra 180-degree flips (`rotate_x(±PI)` as `xFlips`, `rotate_y(PI)` as
`yFlips`); `flipBeforeTurn` records that the Up-after-Left arm performs its
`rotate_x(PI)` before the `rotate_around` call. -/
structure RotationCmd where
  zQuarters : ℤ
  pivotOffset : ℚ × ℚ
  xFlips : ℤ
  yFlips : ℤ
  flipBeforeTurn : Bool
deriving DecidableEq

/-- The no-rotation command (the `_ => ()` arms of `move_bike`). -/
def rotNone : RotationCmd :=
  { zQuarters := 0, pivotOffset := (0, 0), xFlips := 0, yFlips := 0,
    flipBeforeTurn := false }

/-- The sixteen-case turn table of `move_bike`, indexed by the (new,
previous) direction pair exactly as the nested `match` in the source. -/
def rotationCmd (cur prev : Direction) : RotationCmd :=
  match cur, prev with
  | Direction.Left, Direction.Up =>
      { zQuarters := 1, pivotOffset := (0, -(BIKE_WIDTH_CENTER - BIKE_HEIGHT_CENTER)),
        xFlips := -1, yFlips := 0, flipBeforeTurn := false }
  | Direction.Left, Direction.Down =>
      { zQuarters := -1, pivotOffset := (BIKE_HEIGHT_CENTER, BIKE_WIDTH_CENTER),
        xFlips := 0, yFlips := 0, flipBeforeTurn := false }
  | Direction.Right, Direction.Up =>
      { zQuarters := -1, pivotOffset := (BIKE_HEIGHT_CENTER, -BIKE_WIDTH_CENTER),
        xFlips := 0, yFlips := 0, flipBeforeTurn := false }
  | Direction.Right, Direction.Down =>
      { zQuarters := 1, pivotOffset := (0, BIKE_WIDTH_CENTER + BIKE_HEIGHT_CENTER),
        xFlips := 1, yFlips := 0, flipBeforeTurn := false }
  | Direction.Down, Direction.Left =>
      { zQuarters := 1, pivotOffset := (BIKE_WIDTH_CENTER, -BIKE_HEIGHT_CENTER),
        xFlips := 0, yFlips := 0, flipBeforeTurn := false }
  | Direction.Down, Direction.Right =>
      { zQuarters := -1, pivotOffset := (-(BIKE_WIDTH_CENTER + BIKE_HEIGHT_CENTER), 0),
        xFlips := 0, yFlips := 1, flipBeforeTurn := false }
  | Direction.Up, Direction.Left =>
      { zQuarters := -1, pivotOffset := (BIKE_WIDTH_CENTER - BIKE_HEIGHT_CENTER, 0),
        xFlips := 1, yFlips := 0, flipBeforeTurn := true }
  | Direction.Up, Direction.Right =>
      { zQuarters := 1, pivotOffset := (-BIKE_WIDTH_CENTER, -BIKE_HEIGHT_CENTER),
        xFlips := 0, yFlips := 0, flipBeforeTurn := false }
  | _, _ => rotNone

/-- Effect of `Transform::rotate_around(point, rot)` on the translation:
`translation = point + rot * (translation - point)`, specialised to
z-rotations by `±PI/2` quarter turns (`rotate_x`/`rotate_y` do not move the
translation). -/
def rotate_around_translation (t : ℚ × ℚ) (pivot : ℚ × ℚ) (zQ : ℤ) : ℚ × ℚ :=
  if zQ = 1 then (pivot.1 - (t.2 - pivot.2), pivot.2 + (t.1 - pivot.1))
  else if zQ = -1 then (pivot.1 + (t.2 - pivot.2), pivot.2 - (t.1 - pivot.1))
  else t

/-- Effect of `move_bike` (src/main.rs lines 234-326) on the bike
translation: the turn's `rotate_around` (if any) followed by the per-tick
axis shift (`x -= BIKE_DELTA` for Left, `x += BIKE_DELTA` for Right,
`y -= BIKE_DELTA` for Down, `y += BIKE_DELTA` for Up). -/
def move_bike (cur prev : Direction) (pos : ℚ × ℚ) : ℚ × ℚ :=
  let c := rotationCmd cur prev
  let pivot : ℚ × ℚ := (pos.1 + c.pivotOffset.1, pos.2 + c.pivotOffset.2)
  let r := rotate_around_translation pos pivot c.zQuarters
  match cur with
  | Direction.Left => (r.1 - BIKE_DELTA, r.2)
  | Direction.Right => (r.1 + BIKE_DELTA, r.2)
  | Direction.Down => (r.1, r.2 - BIKE_DELTA)
  | Direction.Up => (r.1, r.2 + BIKE_DELTA)

/-- The `Started`/`Stopped` phase tag of a heron `CollisionEvent`. -/
inductive Phase where
  | Started
  | Stopped
deriving DecidableEq

/-- A collision event: phase tag plus the two rigid-body entities
(`first.rigid_body_entity()`, `second.rigid_body_entity()`). -/
structure CollisionEv where
  phase : Phase
  first : Nat
  second : Nat
deriving DecidableEq

/-- Observable effect of `handle_wall_collision` (src/main.rs lines 328-338):
the colliding bike entity is despawned, and if the player query found a
player (`player_id` is `Some`) the app state is set to `Dead`.  Note the
source checks only that a player exists, not that the despawned bike is the
player. -/
structure WallCollisionResult where
  state : AppState
  despawned : Nat
  setDead : Bool
deriving DecidableEq

/-- `handle_wall_collision` from src/main.rs. -/
def handle_wall_collision (player_id : Option Nat) (bike_id : Nat) (st : AppState) :
    WallCollisionResult :=
  match player_id with
  | some _ => { state := AppState.Dead, despawned := bike_id, setDead := true }
  | none => { state := st, despawned := bike_id, setDead := false }

/-- Observable effect of one `check_collisions` run: the resulting app
state, the list of despawned entities (in order), and how many times
`app_state.set(AppState::Dead)` was called. -/
structure CollisionOutcome where
  state : AppState
  despawned : List Nat
  setCalls : Nat
deriving DecidableEq

/-- The event loop of `check_collisions` (src/main.rs lines 354-382): for
each event, the phase tag is discarded; if both bodies are bikes the
(no-op) `handle_bike_collision` runs and the loop continues; otherwise
`handle_wall_collision` runs on the bike participant (on `second` whenever
`first` is not a bike) and the loop breaks. -/
def collisionLoop (player_id : Option Nat) (bikes : List Nat) (st : AppState) :
    List CollisionEv → CollisionOutcome
  | [] => { state := st, despawned := [], setCalls := 0 }
  | e :: rest =>
    if e.first ∈ bikes then
      if e.second ∈ bikes then
        collisionLoop player_id bikes st rest
      else
        let r := handle_wall_collision player_id e.first st
        { state := r.state, despawned := [r.despawned],
          setCalls := if r.setDead = true then 1 else 0 }
    else
      let r := handle_wall_collision player_id e.second st
      { state := r.state, despawned := [r.despawned],
        setCalls := if r.setDead = true then 1 else 0 }

/-- `check_collisions` from src/main.rs: early return when the player query
fails (`player_id = none`), otherwise the event loop.  (In the source the
query item type makes the successful query always yield `Some` of the
player entity.) -/
def check_collisions (events : List CollisionEv) (player_id : Option Nat)
    (bikes : List Nat) (st : AppState) : CollisionOutcome :=
  match player_id with
  | none => { state := st, despawned := [], setCalls := 0 }
  | some p => collisionLoop (some p) bikes st events

/-- Abstract per-tick game world: app state, the player entity (if alive),
the live bike entities, the player bike's translation and direction, its
trail, the next fresh entity id, the camera translation, and the sprite
animation timer/index. -/
structure GameWorld where
  state : AppState
  playerId : Option Nat
  bikes : List Nat
  bikePos : ℚ × ℚ
  bikeDir : Direction
  trail : Trail
  nextEntity : Nat
  cameraPos : ℚ × ℚ
  animTimer : ℚ
  spriteIndex : Nat
deriving DecidableEq

/-- `check_collisions` seen as a world update: despawned entities leave the
bike set, and the player id is cleared if the player was despawned. -/
def check_collisions_w (evs : List CollisionEv) (w : GameWorld) : GameWorld :=
  let out := check_collisions evs w.playerId w.bikes w.state
  { w with
      state := out.state,
      bikes := w.bikes.filter (fun b => decide (b ∉ out.despawned)),
      playerId := w.playerId.bind fun p =>
        if p ∈ out.despawned then none else some p }

/-- `animate_sprite` as a world update: the repeating 0.1 s timer advances
by the tick delta and on finishing steps the 2-frame atlas index. -/
def animate_sprite_w (w : GameWorld) : GameWorld :=
  let t := w.animTimer + TIME_STEP
  if 1 / 10 ≤ t then
    { w with animTimer := t - 1 / 10, spriteIndex := (w.spriteIndex + 1) % 2 }
  else
    { w with animTimer := t }

/-- `camera_system` as a world update: early return when there is no player,
otherwise the camera translation snaps to the rounded player translation. -/
def camera_system_w (w : GameWorld) : GameWorld :=
  match w.playerId with
  | none => w
  | some _ =>
      { w with cameraPos := (((round w.bikePos.1 : ℤ) : ℚ), ((round w.bikePos.2 : ℤ) : ℚ)) }

/-- `player_movement` as a world update: early return when the player query
fails, otherwise select the new direction from the held keys, run
`move_bike`, and grow the trail at the new translation. -/
def player_movement_w (k : KeyInput) (w : GameWorld) : GameWorld :=
  match w.playerId with
  | none => w
  | some _ =>
      let prev := w.bikeDir
      let dir := player_movement_direction k prev
      let pos := move_bike dir prev w.bikePos
      let r := w.trail.trek dir pos w.nextEntity
      { w with bikeDir := dir, bikePos := pos, trail := r.trail,
               nextEntity := w.nextEntity + 1 }

/-- One execution of the `SystemSet::on_update(AppState::InGame)` systems
(src/main.rs lines 153-160), composed in registration order. -/
def runSystems (k : KeyInput) (evs : List CollisionEv) (w : GameWorld) : GameWorld :=
  player_movement_w k (camera_system_w (animate_sprite_w (check_collisions_w evs w)))

/-- One fixed tick of the app: the system set is registered with
`SystemSet::on_update(AppState::InGame)`, so it runs only while the state is
`InGame`; otherwise the tick leaves the world untouched. -/
def tick (k : KeyInput) (evs : List CollisionEv) (w : GameWorld) : GameWorld :=
  if w.state = AppState.InGame then runSystems k evs w else w

/-- A sequence of fixed ticks, each with its own key input and collision
events. -/
def runTicks : List (KeyInput × List CollisionEv) → GameWorld → GameWorld
  | [], w => w
  | (k, evs) :: rest, w => runTicks rest (tick k evs w)

/-- A sequence of `Trail::trek` calls (one per movement tick), threading the
trail and handing out fresh entity ids. -/
def runTreks : List (Direction × ℚ × ℚ) → Trail → Nat → Trail
  | [], t, _ => t
  | (d, p) :: rest, t, i => runTreks rest (t.trek d p i).trail (i + 1)

/-- Signed component of a vector along the travel axis of a direction
(positive in the direction of travel). -/
def travelComponent (d : Direction) (v : ℚ × ℚ) : ℚ :=
  match d with
  | Direction.Left => -v.1
  | Direction.Right => v.1
  | Direction.Down => -v.2
  | Direction.Up => v.2

/-- Whether a turn command applies any 180-degree flip. -/
def hasFlip (c : RotationCmd) : Bool :=
  decide (c.xFlips ≠ 0 ∨ c.yFlips ≠ 0)

/-- All sixteen ordered (previous, new) direction pairs. -/
def allDirectionPairs : List (Direction × Direction) :=
  [(Direction.Left, Direction.Left), (Direction.Left, Direction.Right),
   (Direction.Left, Direction.Down), (Direction.Left, Direction.Up),
   (Direction.Right, Direction.Left), (Direction.Right, Direction.Right),
   (Direction.Right, Direction.Down), (Direction.Right, Direction.Up),
   (Direction.Down, Direction.Left), (Direction.Down, Direction.Right),
   (Direction.Down, Direction.Down), (Direction.Down, Direction.Up),
   (Direction.Up, Direction.Left), (Direction.Up, Direction.Right),
   (Direction.Up, Direction.Down), (Direction.Up, Direction.Up)]

/-- A concrete world in the `Dead` state, used to witness the terminal-state
theorem. -/
def deadWorldExample : GameWorld :=
  { state := AppState.Dead, playerId := none, bikes := [],
    bikePos := (0, 0), bikeDir := Direction.Right, trail := Trail.new,
    nextEntity := 0, cameraPos := (0, 0), animTimer := 0, spriteIndex := 0 }

/-- Helper: `Trail::trek` never changes the capacity. -/
theorem trek_capacity (t : Trail) (d : Direction) (p : ℚ × ℚ) (i : Nat) :
    (t.trek d p i).trail.capacity = t.capacity := by
  simp [Trail.trek]

/-- Helper: below capacity, `trek` adds one block and despawns nothing. -/
theorem trek_len_of_lt (t : Trail) (d : Direction) (p : ℚ × ℚ) (i : Nat)
    (h : t.tail.length < t.capacity) :
    (t.trek d p i).trail.tail.length = t.tail.length + 1 ∧
    (t.trek d p i).despawned = none := by
  have hne : ¬ t.tail.length = t.capacity := Nat.ne_of_lt h
  simp [Trail.trek, hne]

/-- Helper: at capacity, `trek` keeps the count at capacity and despawns
the oldest (back) block. -/
theorem trek_len_of_eq (t : Trail) (d : Direction) (p : ℚ × ℚ) (i : Nat)
    (hcap : 1 ≤ t.capacity) (h : t.tail.length = t.capacity) :
    (t.trek d p i).trail.tail.length = t.capacity ∧
    (t.trek d p i).despawned = Option.map TrailBlock.entity t.tail.getLast? ∧
    (t.trek d p i).despawned ≠ none := by
  have hne : t.tail ≠ [] := by
    intro hnil
    rw [hnil] at h
    simp at h
    omega
  refine ⟨?_, ?_, ?_⟩
  · simp [Trail.trek, h]
    omega
  · simp [Trail.trek, h]
  · simp [Trail.trek, h, hne]

/-- Helper: one `trek` call preserves the capacity bound. -/
theorem trek_preserves_bound (t : Trail) (d : Direction) (p : ℚ × ℚ) (i : Nat)
    (hcap : 1 ≤ t.capacity) (h : t.tail.length ≤ t.capacity) :
    (t.trek d p i).trail.tail.length ≤ (t.trek d p i).trail.capacity := by
  rcases Nat.lt_or_ge t.tail.length t.capacity with hlt | hge
  · rw [trek_capacity, (trek_len_of_lt t d p i hlt).1]
    omega
  · have heq : t.tail.length = t.capacity := Nat.le_antisymm h hge
    rw [trek_capacity, (trek_len_of_eq t d p i hcap heq).1]

/-- Helper: the capacity bound is an invariant of any `trek` sequence. -/
theorem runTreks_bound (steps : List (Direction × ℚ × ℚ)) (t : Trail) (i : Nat)
    (hcap : 1 ≤ t.capacity) (h : t.tail.length ≤ t.capacity) :
    (runTreks steps t i).tail.length ≤ (runTreks steps t i).capacity := by
  induction steps generalizing t i with
  | nil => exact h
  | cons s rest ih =>
      obtain ⟨d, p⟩ := s
      simp only [runTreks]
      exact ih (t.trek d p i).trail (i + 1)
        (by rw [trek_capacity]; exact hcap)
        (trek_preserves_bound t d p i hcap h)

/-- Claim C1: for every sequence of ticks the trail never exceeds its
capacity; below capacity each `trek` adds exactly one block (and despawns
none), and at capacity each `trek` despawns the oldest (back) block while
the count stays constant (one destroyed per one created). -/
theorem C1_trail_capacity_bound :
    (∀ (steps : List (Direction × ℚ × ℚ)) (i : Nat),
        (runTreks steps Trail.new i).tail.length ≤
          (runTreks steps Trail.new i).capacity) ∧
    (∀ (t : Trail) (d : Direction) (p : ℚ × ℚ) (i : Nat),
        t.tail.length < t.capacity →
          (t.trek d p i).trail.tail.length = t.tail.length + 1 ∧
          (t.trek d p i).despawned = none) ∧
    (∀ (t : Trail) (d : Direction) (p : ℚ × ℚ) (i : Nat),
        1 ≤ t.capacity → t.tail.length = t.capacity →
          (t.trek d p i).trail.tail.length = t.capacity ∧
          (t.trek d p i).despawned = Option.map TrailBlock.entity t.tail.getLast? ∧
          (t.trek d p i).despawned ≠ none) := by
  refine ⟨?_, ?_, ?_⟩
  · intro steps i
    exact runTreks_bound steps Trail.new i (by decide) (by decide)
  · intro t d p i h
    exact trek_len_of_lt t d p i h
  · intro t d p i h1 h2
    exact trek_len_of_eq t d p i h1 h2

/-- Witness for C1: a trail of capacity 1 holding one block stays at one
block after a `trek` call. -/
theorem C1_trail_capacity_bound_witness :
    ((({ tail := [{ entity := 7, pos := (0, 0) }], capacity := 1 } : Trail).trek
        Direction.Left (0, 0) 9).trail.tail.length = 1) :=
  (C1_trail_capacity_bound.2.2 { tail := [{ entity := 7, pos := (0, 0) }], capacity := 1 }
    Direction.Left (0, 0) 9 (by decide) (by decide)).1

/-- Claim C2: the selected direction is never the exact opposite of the
previous one, and it equals the first direction in the fixed priority order
Left, Right, Down, Up that is requested and satisfies the no-reversal
constraint (the previous direction if none does). -/
theorem C2_no_reversal_priority :
    ∀ (k : KeyInput) (prev : Direction),
      player_movement_direction k prev ≠ prev.opposite ∧
      player_movement_direction k prev =
        ((requestOrder.filter fun d =>
            requested k d && decide (d ≠ prev.opposite)).headD prev) := by
  decide

/-- Helper: a tick in the `Dead` state is the identity on the world. -/
theorem tick_dead (k : KeyInput) (evs : List CollisionEv) (w : GameWorld)
    (h : w.state = AppState.Dead) : tick k evs w = w := by
  simp [tick, h]

/-- Claim C5: `Dead` is terminal: any sequence of further ticks leaves the
world (positions, trail, camera, sprite, state) untouched, and no tick ever
moves the state back to `InGame` from any other state. -/
theorem C5_dead_terminal :
    (∀ (inputs : List (KeyInput × List CollisionEv)) (w : GameWorld),
        w.state = AppState.Dead → runTicks inputs w = w) ∧
    (∀ (k : KeyInput) (evs : List CollisionEv) (w : GameWorld),
        (tick k evs w).state = AppState.InGame → w.state = AppState.InGame) := by
  constructor
  · intro inputs w h
    induction inputs with
    | nil => rfl
    | cons a rest ih =>
        obtain ⟨k, evs⟩ := a
        rw [runTicks, tick_dead k evs w h]
        exact ih
  · intro k evs w h
    by_cases hs : w.state = AppState.InGame
    · exact hs
    · have hd : w.state = AppState.Dead := by
        cases hw : w.state
        · exact absurd hw hs
        · rfl
      rw [tick_dead k evs w hd] at h
      exact h

/-- Witness for C5: a concrete dead world is unchanged by a tick with keys
held and a pending collision event. -/
theorem C5_dead_terminal_witness :
    runTicks [({ left := true, right := false, down := false, up := false },
               [{ phase := Phase.Started, first := 1, second := 2 }])]
        deadWorldExample = deadWorldExample :=
  C5_dead_terminal.1 _ deadWorldExample rfl

/-- Counterexample to C3 as stated: with player entity 0 alive and a single
event pairing the non-player bike 1 with the wall 2, the code despawns bike
1 (which is not the player) and still transitions the state to `Dead`,
whereas the claim says the state transitions if and only if the destroyed
vehicle is the player-controlled one (so here it should remain `InGame`). -/
theorem C3_counterexample :
    (check_collisions [{ phase := Phase.Started, first := 1, second := 2 }]
        (some 0) [0, 1] AppState.InGame).despawned = [1] ∧
    (1 : Nat) ≠ 0 ∧
    (check_collisions [{ phase := Phase.Started, first := 1, second := 2 }]
        (some 0) [0, 1] AppState.InGame).state = AppState.Dead := by
  decide

/-- Claim C3 (amended): for a collision event pairing a vehicle with a
non-vehicle body, processed while a player exists, the vehicle participant
is despawned (the `second` participant whenever `first` is not a bike), and
`GameState` transitions `InGame → Dead` whenever the player query found a
player — regardless of whether the destroyed vehicle is the player's. -/
theorem C3_vehicle_wall_dead (e : CollisionEv) (rest : List CollisionEv) (p : Nat)
    (bikes : List Nat)
    (h : (e.first ∈ bikes ∧ e.second ∉ bikes) ∨ (e.first ∉ bikes ∧ e.second ∈ bikes)) :
    (check_collisions (e :: rest) (some p) bikes AppState.InGame).state =
      AppState.Dead ∧
    (check_collisions (e :: rest) (some p) bikes AppState.InGame).despawned =
      [if e.first ∈ bikes then e.first else e.second] := by
  rcases h with ⟨h1, h2⟩ | ⟨h1, h2⟩
  · simp [check_collisions, collisionLoop, h1, h2, handle_wall_collision]
  · simp [check_collisions, collisionLoop, h1, h2, handle_wall_collision]

/-- Witness for C3 (amended): the concrete non-player-bike-versus-wall event
despawns the bike and sets the state to `Dead`. -/
theorem C3_vehicle_wall_dead_witness :
    (check_collisions [{ phase := Phase.Started, first := 3, second := 9 }]
        (some 0) [0, 3] AppState.InGame).state = AppState.Dead :=
  (C3_vehicle_wall_dead { phase := Phase.Started, first := 3, second := 9 } [] 0 [0, 3]
    (Or.inl (by decide))).1

/-- Helper: the collision loop despawns at most one entity and calls
`set(Dead)` at most once. -/
theorem collisionLoop_le (pid : Option Nat) (bikes : List Nat) (st : AppState)
    (events : List CollisionEv) :
    (collisionLoop pid bikes st events).despawned.length ≤ 1 ∧
    (collisionLoop pid bikes st events).setCalls ≤ 1 := by
  induction events with
  | nil => simp [collisionLoop]
  | cons e rest ih =>
      by_cases h1 : e.first ∈ bikes
      · by_cases h2 : e.second ∈ bikes
        · simpa [collisionLoop, h1, h2] using ih
        · simp [collisionLoop, h1, h2]
          split <;> simp
      · simp [collisionLoop, h1]
        split <;> simp

/-- Helper: if the collision loop ends in `Dead` then either it started
there or the `set(Dead)` call happened exactly once. -/
theorem collisionLoop_state_dead (pid : Option Nat) (bikes : List Nat)
    (st : AppState) (events : List CollisionEv)
    (h : (collisionLoop pid bikes st events).state = AppState.Dead) :
    st = AppState.Dead ∨ (collisionLoop pid bikes st events).setCalls = 1 := by
  induction events with
  | nil => exact Or.inl h
  | cons e rest ih =>
      by_cases h1 : e.first ∈ bikes
      · by_cases h2 : e.second ∈ bikes
        · rw [collisionLoop] at h ⊢
          simp only [h1, h2, if_pos] at h ⊢
          exact ih h
        · cases pid with
          | none =>
              rw [collisionLoop] at h
              simp [h1, h2, handle_wall_collision] at h
              exact Or.inl h
          | some p =>
              right
              simp [collisionLoop, h1, h2, handle_wall_collision]
      · cases pid with
        | none =>
            rw [collisionLoop] at h
            simp [h1, handle_wall_collision] at h
            exact Or.inl h
        | some p =>
            right
            simp [collisionLoop, h1, handle_wall_collision]

/-- Claim C4: collision resolution performs at most one despawn and at most
one `set(Dead)` call per tick (the loop breaks on the first wall hit), and
a tick that ends `Dead` from `InGame` performed the transition exactly
once. -/
theorem C4_one_fatal_per_tick :
    ∀ (events : List CollisionEv) (pid : Option Nat) (bikes : List Nat),
      (∀ st, (check_collisions events pid bikes st).despawned.length ≤ 1 ∧
             (check_collisions events pid bikes st).setCalls ≤ 1) ∧
      ((check_collisions events pid bikes AppState.InGame).state = AppState.Dead →
        (check_collisions events pid bikes AppState.InGame).setCalls = 1) := by
  intro events pid bikes
  constructor
  · intro st
    cases pid with
    | none => simp [check_collisions]
    | some p => simpa [check_collisions] using collisionLoop_le (some p) bikes st events
  · intro h
    cases pid with
    | none => simp [check_collisions] at h
    | some p =>
        have h2 := collisionLoop_state_dead (some p) bikes AppState.InGame events
          (by simpa [check_collisions] using h)
        rcases h2 with h2 | h2
        · exact absurd h2 (by decide)
        · simpa [check_collisions] using h2

/-- Witness for C4: two player-versus-wall events in the same tick still
produce exactly one `set(Dead)` call. -/
theorem C4_one_fatal_per_tick_witness :
    (check_collisions
        [{ phase := Phase.Started, first := 1, second := 2 },
         { phase := Phase.Stopped, first := 1, second := 3 }]
        (some 1) [1] AppState.InGame).setCalls = 1 :=
  (C4_one_fatal_per_tick
      [{ phase := Phase.Started, first := 1, second := 2 },
       { phase := Phase.Stopped, first := 1, second := 3 }]
      (some 1) [1]).2 (by decide)

/-- Claim C10: collision resolution ignores the phase tag: replacing every
event's phase by anything (in particular swapping `Started` and `Stopped`)
leaves the entire outcome — classification, despawns, state transition —
unchanged. -/
theorem C10_phase_ignored :
    ∀ (events : List CollisionEv) (g : CollisionEv → Phase) (pid : Option Nat)
      (bikes : List Nat) (st : AppState),
      check_collisions
          (events.map fun e => { phase := g e, first := e.first, second := e.second })
          pid bikes st =
        check_collisions events pid bikes st := by
  intro events g pid bikes st
  cases pid with
  | none => simp [check_collisions]
  | some p =>
      simp only [check_collisions]
      induction events with
      | nil => rfl
      | cons e rest ih =>
          by_cases h1 : e.first ∈ bikes
          · by_cases h2 : e.second ∈ bikes
            · simpa [collisionLoop, h1, h2] using ih
            · simp [collisionLoop, h1, h2]
          · simp [collisionLoop, h1]

/-- Counterexample to C6 as stated: on a straight tick heading Up from the
origin the y-coordinate becomes `+BIKE_DELTA` (it increases), while the
claim's render-space convention says Up must decrease the y-coordinate. -/
theorem C6_counterexample :
    move_bike Direction.Up Direction.Up (0, 0) = ((0 : ℚ), (20 : ℚ) / 3) ∧
    ¬ (move_bike Direction.Up Direction.Up (0, 0)).2 < (0 : ℚ) := by
  refine ⟨?_, ?_⟩ <;>
    norm_num [move_bike, rotationCmd, rotNone, rotate_around_translation,
      BIKE_DELTA, BIKE_SPEED, TIME_STEP]

/-- Claim C6 (amended): on every movement tick in which the direction did
not change, the position changes by exactly `BIKE_DELTA` along the axis of
the current direction — Left decreases x, Right increases x, Down decreases
y, Up increases y (the engine's y-up convention, not render-space y-down) —
and the other coordinate is unchanged.  (On turning ticks the pivot
rotation additionally displaces the centre before this axis shift.) -/
theorem C6_translation_axis :
    ∀ (d : Direction) (p : ℚ × ℚ),
      move_bike d d p =
        (match d with
         | Direction.Left => (p.1 - BIKE_DELTA, p.2)
         | Direction.Right => (p.1 + BIKE_DELTA, p.2)
         | Direction.Down => (p.1, p.2 - BIKE_DELTA)
         | Direction.Up => (p.1, p.2 + BIKE_DELTA)) := by
  intro d p
  cases d <;> simp [move_bike, rotationCmd, rotNone, rotate_around_translation]

/-- Claim C7: each `trek` call places the new segment behind the bike, with
travel-axis offset `-(BIKE_DELTA + BIKE_WIDTH_CENTER)` from the bike's
position, and on two consecutive non-turning ticks the squared Euclidean
distance between the successive segment centres is exactly
`BIKE_DELTA ^ 2` — i.e. the distance equals the per-tick displacement, so
segments tile with no drift. -/
theorem C7_contiguity :
    ∀ (d : Direction) (p : ℚ × ℚ),
      ((trekNewHeadPos d (move_bike d d p)).1 - (trekNewHeadPos d p).1) ^ 2 +
          ((trekNewHeadPos d (move_bike d d p)).2 - (trekNewHeadPos d p).2) ^ 2 =
        BIKE_DELTA ^ 2 ∧
      travelComponent d
          ((trekNewHeadPos d p).1 - p.1, (trekNewHeadPos d p).2 - p.2) =
        -(BIKE_DELTA + BIKE_WIDTH_CENTER) := by
  intro d p
  cases d <;>
    refine ⟨?_, ?_⟩ <;>
    simp [trekNewHeadPos, move_bike, rotationCmd, rotNone,
      rotate_around_translation, travelComponent] <;>
    ring

/-- Counterexample to C8 as stated: the collision footprint side of a
spawned segment is `BIKE_DELTA - 2`, not `BIKE_DELTA - 1` — the safety
margin is 2 units of side length (1 unit per half-extent), not 1. -/
theorem C8_margin_counterexample :
    2 * (Trail.new.trek Direction.Right (0, 0) 0).spawned.halfExtends.1 =
        BIKE_DELTA - 2 ∧
    2 * (Trail.new.trek Direction.Right (0, 0) 0).spawned.halfExtends.1 ≠
        BIKE_DELTA - 1 := by
  refine ⟨?_, ?_⟩ <;>
    norm_num [Trail.trek, Trail.new, TRAIL_BLOCK_HALF,
      BIKE_DELTA, BIKE_SPEED, TIME_STEP]

/-- Claim C8 (amended): every segment created by `trek` is a static rigid
body with a square collision footprint of side `BIKE_DELTA - 2` (half-extent
`TRAIL_BLOCK_HALF = BIKE_DELTA / 2 - 1`, a 1-unit margin per half-extent),
which is strictly smaller than the per-tick displacement, so it cannot
touch the immediately-preceding segment. -/
theorem C8_segment_collision_box :
    ∀ (t : Trail) (d : Direction) (p : ℚ × ℚ) (i : Nat),
      (t.trek d p i).spawned.body = RigidBodyKind.Static ∧
      (t.trek d p i).spawned.halfExtends.1 = (t.trek d p i).spawned.halfExtends.2 ∧
      2 * (t.trek d p i).spawned.halfExtends.1 = BIKE_DELTA - 2 ∧
      2 * (t.trek d p i).spawned.halfExtends.1 < BIKE_DELTA := by
  intro t d p i
  refine ⟨?_, ?_, ?_, ?_⟩ <;>
    simp [Trail.trek, TRAIL_BLOCK_HALF] <;>
    norm_num [BIKE_DELTA, BIKE_SPEED, TIME_STEP]

/-- Counterexample to C9 as stated: the number of ordered (previous, new)
direction pairs whose turn applies an extra 180-degree flip is four —
(Up, Left), (Down, Right), (Right, Down) and (Left, Up) — not the claimed
two. -/
theorem C9_flip_count :
    (allDirectionPairs.countP fun pr => hasFlip (rotationCmd pr.2 pr.1)) = 4 ∧
    (4 : Nat) ≠ 2 := by
  decide

/-- Claim C9 (amended): the turn table is a total deterministic function of
the (previous, new) direction pair; the eight same-direction or reversal
pairs apply no rotation at all, the eight turning pairs each apply a
quarter turn of `+PI/2` or `-PI/2` about their pivot, and exactly four
transitions — (Up, Left), (Down, Right), (Right, Down), (Left, Up) as
(previous, new) — additionally apply a 180-degree flip. -/
theorem C9_rotation_table :
    ∀ (prev cur : Direction),
      ((cur = prev ∨ cur = prev.opposite) → rotationCmd cur prev = rotNone) ∧
      (¬(cur = prev ∨ cur = prev.opposite) →
        (rotationCmd cur prev).zQuarters = 1 ∨ (rotationCmd cur prev).zQuarters = -1) ∧
      (hasFlip (rotationCmd cur prev) = true ↔
        ((prev, cur) = (Direction.Up, Direction.Left) ∨
         (prev, cur) = (Direction.Down, Direction.Right) ∨
         (prev, cur) = (Direction.Right, Direction.Down) ∨
         (prev, cur) = (Direction.Left, Direction.Up))) := by
  decide

/-- Witness for C9 (amended): a reversal pair applies no rotation, and the
turning pair Right-then-Down applies a quarter turn. -/
theorem C9_rotation_table_witness :
    rotationCmd Direction.Left Direction.Right = rotNone ∧
    ((rotationCmd Direction.Down Direction.Right).zQuarters = 1 ∨
      (rotationCmd Direction.Down Direction.Right).zQuarters = -1) :=
  ⟨(C9_rotation_table Direction.Right Direction.Left).1 (Or.inr (by decide)),
   (C9_rotation_table Direction.Right Direction.Down).2.1 (by decide)⟩

end CyberCycle
